import Mathlib

/-!
Verification of the reservoir outflow-temperature model in
`src/hooks/useReservoirModel.ts`.

The executable core of the repository is a pair of pure functions:

* `predictTemperature` — maps observed conditions, scenario adjustments and a
  forecast horizon to a prediction record (point estimate, baseline delta,
  accuracy proxies, confidence, bounds);
* `calculateFeatureImportance` — maps conditions and adjustments to a ranked
  list of weighted feature drivers;

plus a state holder (`useReservoirModel`) that snapshots inputs on an explicit
"generate forecast" action.

JavaScript numbers are modelled as exact rationals (`ℚ`).  The rounding
primitives of the source — `Number(x.toFixed(1))`, `Number(x.toFixed(2))` and
`Math.round` — all round to the nearest representable value with ties going to
the larger value, which over `ℚ` is `⌊x·10^k + 1/2⌋ / 10^k`.

The source computes its seasonal factor from the wall clock
(`new Date().getDay()`), a value the enclosing expression turns into
`Math.sin(2π·(day/365)) * 2`.  The predictor here threads that factor through
as an explicit parameter; the real-valued formula itself is modelled
separately (`seasonalFactor`) for the claims that are about it.
-/

/-- JS `Number(x.toFixed(1))`: round to the nearest multiple of `1/10`,
ties toward the larger value. -/
def round1 (x : ℚ) : ℚ := (⌊x * 10 + 1 / 2⌋ : ℚ) / 10

/-- JS `Number(x.toFixed(2))`: round to the nearest multiple of `1/100`,
ties toward the larger value. -/
def round2 (x : ℚ) : ℚ := (⌊x * 100 + 1 / 2⌋ : ℚ) / 100

/-- JS `Math.round`: round half toward positive infinity. -/
def jsRound (x : ℚ) : ℤ := ⌊x + 1 / 2⌋

/-- Interface `ReservoirInputs` of `useReservoirModel.ts`. -/
structure ReservoirInputs where
  tempOut : ℚ
  tempIn : ℚ
  discharge : ℚ
  storage : ℚ
  airTemp : ℚ
  solarRad : ℚ
  windSpeed : ℚ
  humidity : ℚ
deriving DecidableEq

/-- Interface `ScenarioAdjustments`. -/
structure ScenarioAdjustments where
  dischargeChange : ℚ
  airTempChange : ℚ
  storageChange : ℚ
deriving DecidableEq

/-- Interface `PredictionResult`. -/
structure PredictionResult where
  predicted : ℚ
  change : ℚ
  mae : ℚ
  r2 : ℚ
  confidence : ℚ
  lowerBound : ℚ
  upperBound : ℚ
deriving DecidableEq

/-- The horizon argument of `predictTemperature` (TypeScript type `1 | 3 | 7`). -/
inductive Horizon where
  | h1
  | h3
  | h7
deriving DecidableEq

/-- Numeric value of the horizon where the source uses it as a number. -/
def Horizon.days : Horizon → ℚ
  | .h1 => 1
  | .h3 => 3
  | .h7 => 7

/-- Field `decay` of the `horizonFactors` table. -/
def Horizon.decay : Horizon → ℚ
  | .h1 => 1.0
  | .h3 => 0.85
  | .h7 => 0.7

/-- Field `uncertainty` of the `horizonFactors` table. -/
def Horizon.uncertaintyBase : Horizon → ℚ
  | .h1 => 0.5
  | .h3 => 1.2
  | .h7 => 2.0

/-- Field `r2` of the `horizonFactors` table. -/
def Horizon.r2 : Horizon → ℚ
  | .h1 => 0.94
  | .h3 => 0.89
  | .h7 => 0.85

/-- The `adjustedInputs` record built at the top of `predictTemperature`:
discharge and storage are scaled by their percentage changes, air temperature
is shifted, every other field passes through. -/
def applyAdjustments (inputs : ReservoirInputs) (adjustments : ScenarioAdjustments) :
    ReservoirInputs :=
  { inputs with
    discharge := inputs.discharge * (1 + adjustments.dischargeChange / 100)
    airTemp := inputs.airTemp + adjustments.airTempChange
    storage := inputs.storage * (1 + adjustments.storageChange / 100) }

/-- The running value of the `predicted` variable of `predictTemperature`
just before the clamp: the weighted linear combination of the normalized
(already adjusted) conditions followed by the three threshold-triggered
additive corrections.  The seasonal factor is threaded as a parameter. -/
def rawPrediction (c : ReservoirInputs) (horizon : Horizon) (seasonalFactorValue : ℚ) : ℚ :=
  let normDischarge := c.discharge / 200
  let normStorage := c.storage / 500
  let normSolar := c.solarRad / 800
  let normWind := c.windSpeed / 10
  let normHumidity := c.humidity / 100
  let base :=
    0.0 + 0.65 * c.tempOut * horizon.decay + 0.15 * c.tempIn + 0.12 * c.airTemp +
      0.08 * normSolar * 5 + (-0.03) * normDischarge * 3 + 0.02 * normStorage * 2 +
      (-0.04) * normWind * 2 + 0.02 * normHumidity + 0.08 * seasonalFactorValue
  let airTempDiff := c.airTemp - c.tempOut
  let afterAir :=
    if airTempDiff > 5 then base + 0.15 * horizon.days
    else if airTempDiff < -5 then base - 0.1 * horizon.days
    else base
  let afterSolar :=
    if c.solarRad > 500 ∧ c.windSpeed < 2 then afterAir + 0.3 * (horizon.days / 7)
    else afterAir
  if c.discharge < 50 ∧ c.storage > 300 then afterSolar + 0.2 else afterSolar

/-- The clamp step: `predicted = Math.max(0, Math.min(35, predicted))`. -/
def clampedPrediction (c : ReservoirInputs) (horizon : Horizon) (seasonalFactorValue : ℚ) : ℚ :=
  max 0 (min 35 (rawPrediction c horizon seasonalFactorValue))

/-- The tail of `predictTemperature` after `adjustedInputs` has been built:
derived outputs and the rounded result record.  `originalTempOut` is
`inputs.tempOut`, the unadjusted baseline used for the `change` field. -/
def predictFromConditions (c : ReservoirInputs) (originalTempOut : ℚ) (horizon : Horizon)
    (seasonalFactorValue : ℚ) : PredictionResult :=
  let predicted := clampedPrediction c horizon seasonalFactorValue
  let change := predicted - originalTempOut
  let mae := 0.5 + horizon.days * 0.1
  let uncertaintyWidth := horizon.uncertaintyBase + |change| * 0.1
  let lowerBound := predicted - uncertaintyWidth
  let upperBound := predicted + uncertaintyWidth
  let confidence := jsRound (85 - horizon.days * 2 - |change| * 0.5)
  { predicted := round1 predicted
    change := round1 change
    mae := round2 mae
    r2 := horizon.r2
    confidence := max 60 (min 95 (confidence : ℚ))
    lowerBound := round1 lowerBound
    upperBound := round1 upperBound }

/-- Function `predictTemperature` of `useReservoirModel.ts`, with the
time-dependent seasonal factor threaded as an explicit parameter. -/
def predictTemperature (inputs : ReservoirInputs) (adjustments : ScenarioAdjustments)
    (horizon : Horizon) (seasonalFactorValue : ℚ) : PredictionResult :=
  predictFromConditions (applyAdjustments inputs adjustments) inputs.tempOut horizon
    seasonalFactorValue

/-- The predictor with the adjustment step skipped entirely: the observed
conditions are scored as they are. -/
def predictTemperatureUnadjusted (inputs : ReservoirInputs) (horizon : Horizon)
    (seasonalFactorValue : ℚ) : PredictionResult :=
  predictFromConditions inputs inputs.tempOut horizon seasonalFactorValue

/-- Sanity check against the concrete scenario of spec § 8: the default
dashboard conditions at horizon 1 give meanAbsoluteErrorProxy 0.60. -/
theorem predictTemperature_mae_demo :
    (predictTemperature
      { tempOut := 18.5, tempIn := 16.2, discharge := 142.5, storage := 285.3,
        airTemp := 22.8, solarRad := 425, windSpeed := 3.2, humidity := 65 }
      { dischargeChange := 0, airTempChange := 0, storageChange := 0 }
      Horizon.h1 0).mae = 0.6 := by
  norm_num [predictTemperature, predictFromConditions, clampedPrediction, rawPrediction,
    applyAdjustments, round1, round2, jsRound, Horizon.days, Horizon.decay,
    Horizon.uncertaintyBase, Horizon.r2]

/-- Reference predictedTemp of spec § 4.1 as restated by claim C1, written
from the spec text: effective conditions, normalization, the weighted sum
with fixed coefficients and horizon decay, the three threshold corrections,
the clamp to [0, 35] and the final rounding to one decimal. -/
def specPredictedTemp (conditions : ReservoirInputs) (adjustment : ScenarioAdjustments)
    (horizon : Horizon) (seasonalFactorValue : ℚ) : ℚ :=
  let effectiveDischarge := conditions.discharge * (1 + adjustment.dischargeChange / 100)
  let effectiveAirTemp := conditions.airTemp + adjustment.airTempChange
  let effectiveStorage := conditions.storage * (1 + adjustment.storageChange / 100)
  let dischargeN := effectiveDischarge / 200
  let storageN := effectiveStorage / 500
  let solarN := conditions.solarRad / 800
  let windN := conditions.windSpeed / 10
  let humidityN := conditions.humidity / 100
  let weightedSum :=
    0.65 * conditions.tempOut * horizon.decay + 0.15 * conditions.tempIn +
      0.12 * effectiveAirTemp + 0.08 * solarN * 5 + (-0.03) * dischargeN * 3 +
      0.02 * storageN * 2 + (-0.04) * windN * 2 + 0.02 * humidityN +
      0.08 * seasonalFactorValue
  let withAir :=
    if effectiveAirTemp - conditions.tempOut > 5 then weightedSum + 0.15 * horizon.days
    else if effectiveAirTemp - conditions.tempOut < -5 then weightedSum - 0.10 * horizon.days
    else weightedSum
  let withSolar :=
    if conditions.solarRad > 500 ∧ conditions.windSpeed < 2 then
      withAir + 0.30 * (horizon.days / 7)
    else withAir
  let withCalm :=
    if effectiveDischarge < 50 ∧ effectiveStorage > 300 then withSolar + 0.20 else withSolar
  round1 (max 0 (min 35 withCalm))

/-- C1: for every conditions record, adjustment record, horizon and seasonal
factor value, the predictedTemp returned by the source predictor equals the
reference definition of spec § 4.1. -/
theorem predictedTemp_matches_spec (conditions : ReservoirInputs)
    (adjustment : ScenarioAdjustments) (horizon : Horizon) (sf : ℚ) :
    (predictTemperature conditions adjustment horizon sf).predicted =
      specPredictedTemp conditions adjustment horizon sf := by
  simp only [predictTemperature, predictFromConditions, clampedPrediction, rawPrediction,
    applyAdjustments, specPredictedTemp]
  split_ifs <;> (congr 1; congr 1; congr 1; ring)

/-- Projection of the returned record: the point estimate is the clamped
prediction rounded to one decimal. -/
theorem predicted_eq (i : ReservoirInputs) (a : ScenarioAdjustments) (h : Horizon) (sf : ℚ) :
    (predictTemperature i a h sf).predicted =
      round1 (clampedPrediction (applyAdjustments i a) h sf) := rfl

/-- Projection of the returned record: the reported delta is the difference
between the clamped prediction and the original outflow temperature, rounded
to one decimal. -/
theorem change_eq (i : ReservoirInputs) (a : ScenarioAdjustments) (h : Horizon) (sf : ℚ) :
    (predictTemperature i a h sf).change =
      round1 (clampedPrediction (applyAdjustments i a) h sf - i.tempOut) := rfl

/-- Rounding to one decimal is monotone. -/
theorem round1_mono {x y : ℚ} (hxy : x ≤ y) : round1 x ≤ round1 y := by
  unfold round1
  have hfl : (⌊x * 10 + 1 / 2⌋ : ℤ) ≤ ⌊y * 10 + 1 / 2⌋ := Int.floor_le_floor (by linarith)
  have : ((⌊x * 10 + 1 / 2⌋ : ℤ) : ℚ) ≤ ((⌊y * 10 + 1 / 2⌋ : ℤ) : ℚ) := by exact_mod_cast hfl
  linarith

/-- Rounding to one decimal fixes zero. -/
theorem round1_zero : round1 0 = 0 := by norm_num [round1]

/-- Rounding to one decimal fixes 35. -/
theorem round1_thirtyfive : round1 35 = 35 := by norm_num [round1]

/-- The clamp step lands in [0, 35]. -/
theorem clampedPrediction_bounds (c : ReservoirInputs) (h : Horizon) (sf : ℚ) :
    0 ≤ clampedPrediction c h sf ∧ clampedPrediction c h sf ≤ 35 := by
  unfold clampedPrediction
  exact ⟨le_max_left _ _, max_le (by norm_num) (min_le_left _ _)⟩

/-- C4: for every conditions record, adjustment record, horizon and seasonal
factor value, the returned predictedTemp lies in the closed interval [0, 35]:
the sum is clamped before rounding and the one-decimal rounding keeps the
value inside the interval. -/
theorem predictedTemp_in_range (i : ReservoirInputs) (a : ScenarioAdjustments)
    (h : Horizon) (sf : ℚ) :
    0 ≤ (predictTemperature i a h sf).predicted ∧
      (predictTemperature i a h sf).predicted ≤ 35 := by
  rw [predicted_eq]
  obtain ⟨hlo, hhi⟩ := clampedPrediction_bounds (applyAdjustments i a) h sf
  constructor
  · calc (0 : ℚ) = round1 0 := round1_zero.symm
      _ ≤ _ := round1_mono hlo
  · calc round1 (clampedPrediction (applyAdjustments i a) h sf) ≤ round1 35 :=
        round1_mono hhi
      _ = 35 := round1_thirtyfive

/-- The uncertainty width is nonnegative for every horizon. -/
theorem uncertaintyWidth_nonneg (h : Horizon) (change : ℚ) :
    0 ≤ h.uncertaintyBase + |change| * 0.1 := by
  have h1 : (0 : ℚ) ≤ |change| := abs_nonneg _
  cases h <;> simp only [Horizon.uncertaintyBase] <;> nlinarith

/-- C10: for every conditions record, adjustment record, horizon and seasonal
factor value, the returned record satisfies lowerBound ≤ predictedTemp ≤
upperBound: the uncertainty width is nonnegative and the independent
one-decimal rounding of the three fields preserves the ordering. -/
theorem bounds_bracket_predictedTemp (i : ReservoirInputs) (a : ScenarioAdjustments)
    (h : Horizon) (sf : ℚ) :
    (predictTemperature i a h sf).lowerBound ≤ (predictTemperature i a h sf).predicted ∧
      (predictTemperature i a h sf).predicted ≤ (predictTemperature i a h sf).upperBound := by
  have hu := uncertaintyWidth_nonneg h
    (clampedPrediction (applyAdjustments i a) h sf - i.tempOut)
  constructor
  · exact round1_mono (by linarith)
  · exact round1_mono (by linarith)

/-- C7: r2Proxy is exactly 0.94 / 0.89 / 0.85 for horizons 1 / 3 / 7, for
every conditions record, adjustment record and seasonal factor value — it
depends on the horizon only. -/
theorem r2Proxy_fixed_per_horizon (i : ReservoirInputs) (a : ScenarioAdjustments) (sf : ℚ) :
    (predictTemperature i a Horizon.h1 sf).r2 = 0.94 ∧
      (predictTemperature i a Horizon.h3 sf).r2 = 0.89 ∧
      (predictTemperature i a Horizon.h7 sf).r2 = 0.85 :=
  ⟨rfl, rfl, rfl⟩

/-- Applying the all-zero adjustment leaves the conditions unchanged. -/
theorem applyAdjustments_zero (i : ReservoirInputs) :
    applyAdjustments i { dischargeChange := 0, airTempChange := 0, storageChange := 0 } = i := by
  cases i
  simp only [applyAdjustments]
  norm_num

/-- C5: calling the predictor with the all-zero adjustment returns exactly the
same PredictionResult (every field equal) as evaluating the predictor with no
adjustment step applied, for every conditions record, horizon and seasonal
factor value. -/
theorem zero_adjustment_identity (i : ReservoirInputs) (h : Horizon) (sf : ℚ) :
    predictTemperature i { dischargeChange := 0, airTempChange := 0, storageChange := 0 } h sf =
      predictTemperatureUnadjusted i h sf := by
  unfold predictTemperature predictTemperatureUnadjusted
  rw [applyAdjustments_zero]

/-- Concrete conditions for the C3 counterexample: outflowTemp 1.19 and
inflowTemp 3.11 give an unrounded prediction of exactly 1.24 and an unrounded
delta of exactly 0.05. -/
def c3Conditions : ReservoirInputs :=
  { tempOut := 1.19, tempIn := 3.11, discharge := 0, storage := 0,
    airTemp := 0, solarRad := 0, windSpeed := 0, humidity := 0 }

/-- The all-zero scenario adjustment. -/
def zeroAdjustment : ScenarioAdjustments :=
  { dischargeChange := 0, airTempChange := 0, storageChange := 0 }

/-- Counterexample to C3 as stated: at `c3Conditions` the returned
changeFromBaseline is 0.1 (the unrounded delta 0.05 rounded up), while
rounding the delta of the already-rounded predictedTemp 1.2 against the
baseline 1.19 gives round1(0.01) = 0. -/
theorem change_not_from_rounded_predicted :
    (predictTemperature c3Conditions zeroAdjustment Horizon.h1 0).change ≠
      round1 ((predictTemperature c3Conditions zeroAdjustment Horizon.h1 0).predicted -
        c3Conditions.tempOut) := by
  norm_num [predictTemperature, predictFromConditions, clampedPrediction, rawPrediction,
    applyAdjustments, c3Conditions, zeroAdjustment, round1, round2, jsRound,
    Horizon.days, Horizon.decay, Horizon.uncertaintyBase, Horizon.r2]

/-- C3 amended: the returned changeFromBaseline equals round1 of the
difference between the clamped pre-rounding prediction and the original,
unadjusted outflow temperature — the delta is taken against the unmodified
baseline even when scenario adjustments are nonzero, but from the unrounded
prediction, not the returned rounded one. -/
theorem change_from_unrounded_baseline (i : ReservoirInputs) (a : ScenarioAdjustments)
    (h : Horizon) (sf : ℚ) :
    (predictTemperature i a h sf).change =
      round1 (clampedPrediction (applyAdjustments i a) h sf - i.tempOut) := rfl

/-- Concrete conditions for the C6 counterexample: outflowTemp 104/35 gives an
unrounded delta of exactly −1.04, whose rounding flips the confidence
formula across the half-integer boundary. -/
def c6Conditions : ReservoirInputs :=
  { tempOut := 104 / 35, tempIn := 0, discharge := 0, storage := 0,
    airTemp := 0, solarRad := 0, windSpeed := 0, humidity := 0 }

/-- Counterexample to C6 as stated: at `c6Conditions` the source computes the
confidence from the unrounded delta −1.04, giving round(82.48) = 82, while
the claim formula using the reported (rounded) delta −1.0 gives
round(82.5) = 83. -/
theorem confidence_not_from_reported_delta :
    (predictTemperature c6Conditions zeroAdjustment Horizon.h1 0).confidence ≠
      max 60 (min 95
        ((jsRound (85 - Horizon.h1.days * 2 -
          |(predictTemperature c6Conditions zeroAdjustment Horizon.h1 0).change| * 0.5) : ℚ)))
    := by
  norm_num [predictTemperature, predictFromConditions, clampedPrediction, rawPrediction,
    applyAdjustments, c6Conditions, zeroAdjustment, round1, round2, jsRound,
    Horizon.days, Horizon.decay, Horizon.uncertaintyBase, Horizon.r2, abs_of_nonneg]

/-- C6 amended: the returned confidencePercent equals
round(85 − horizon×2 − |delta|×0.5) clamped to [60, 95], where delta is the
unrounded changeFromBaseline (clamped prediction minus original outflow
temperature, before the one-decimal output rounding); in particular the
confidencePercent always lies in [60, 95]. -/
theorem confidence_formula_and_range (i : ReservoirInputs) (a : ScenarioAdjustments)
    (h : Horizon) (sf : ℚ) :
    (predictTemperature i a h sf).confidence =
      max 60 (min 95
        ((jsRound (85 - h.days * 2 -
          |clampedPrediction (applyAdjustments i a) h sf - i.tempOut| * 0.5) : ℚ))) ∧
      60 ≤ (predictTemperature i a h sf).confidence ∧
      (predictTemperature i a h sf).confidence ≤ 95 := by
  refine ⟨rfl, le_max_left _ _, max_le (by norm_num) (min_le_left _ _)⟩

/-- Seasonal factor as the source computes it:
`Math.sin(2 * Math.PI * dayOfYear) * 2` with
`dayOfYear = new Date().getDay() / 365`, i.e. the wall-clock day-of-week
index (0–6) divided by 365.  The day index is threaded as the parameter. -/
noncomputable def seasonalFactor (d : ℕ) : ℝ :=
  Real.sin (2 * Real.pi * ((d : ℝ) / 365)) * 2

/-- Counterexample to C2 as stated: at day-of-week index 1 the factor the
source computes, sin(2π·(1/365))·2, differs from the claimed
sin(2π·((1/7)/365))·2 — the source divides the index by 365 directly, with
no intermediate division by 7. -/
theorem seasonalFactor_claim_counterexample :
    seasonalFactor 1 ≠ Real.sin (2 * Real.pi * (((1 : ℝ) / 7) / 365)) * 2 := by
  have hπ := Real.pi_pos
  have ha : 2 * Real.pi * (((1 : ℝ) / 7) / 365) ∈
      Set.Icc (-(Real.pi / 2)) (Real.pi / 2) := by
    constructor <;> nlinarith
  have hb : 2 * Real.pi * ((1 : ℝ) / 365) ∈
      Set.Icc (-(Real.pi / 2)) (Real.pi / 2) := by
    constructor <;> nlinarith
  have hlt : 2 * Real.pi * (((1 : ℝ) / 7) / 365) < 2 * Real.pi * ((1 : ℝ) / 365) := by
    nlinarith
  have hsin := Real.strictMonoOn_sin ha hb hlt
  unfold seasonalFactor
  push_cast
  intro hcontra
  nlinarith [hsin]

/-- C2 amended: the seasonal factor used by the predictor equals
sin(2π × d/365) × 2 for the supplied day-of-week index d (divided by 365
directly, with no intermediate division by 7), and the factor enters the
pre-clamp prediction multiplied by the coefficient 0.08. -/
theorem seasonalFactor_formula_and_coefficient :
    (∀ d : ℕ, seasonalFactor d = Real.sin (2 * Real.pi * ((d : ℝ) / 365)) * 2) ∧
    (∀ (i : ReservoirInputs) (a : ScenarioAdjustments) (h : Horizon) (sf : ℚ),
      rawPrediction (applyAdjustments i a) h sf =
        rawPrediction (applyAdjustments i a) h 0 + 0.08 * sf) := by
  constructor
  · intro d
    rfl
  · intro i a h sf
    simp only [rawPrediction]
    split_ifs <;> ring

/-- Entry shape produced by `calculateFeatureImportance`. -/
structure FeatureImportanceEntry where
  feature : String
  importance : ℤ
  category : String
deriving DecidableEq

/-- Function `getCategoryForFeature` of the source: the fixed category tag per
feature name, defaulting to "other". -/
def getCategoryForFeature (feature : String) : String :=
  if feature = "T_out (t-1)" then "hydrology"
  else if feature = "Air Temperature" then "meteorology"
  else if feature = "Solar Radiation" then "meteorology"
  else if feature = "Seasonality" then "temporal"
  else if feature = "Inflow Temp" then "hydrology"
  else if feature = "Discharge" then "operations"
  else if feature = "Storage" then "operations"
  else if feature = "Wind Speed" then "meteorology"
  else "other"

/-- The per-feature weights of `calculateFeatureImportance`. -/
structure FeatureWeights where
  tOutLag : ℚ
  airTemperature : ℚ
  solarRadiation : ℚ
  seasonality : ℚ
  inflowTemp : ℚ
  discharge : ℚ
  storage : ℚ
  windSpeed : ℚ
deriving DecidableEq

/-- The `adjusted` weights object of `calculateFeatureImportance`: the base
weights 28/18/14/12/10/8/6/4 plus the conditional bumps.  The source applies
the bumps by sequential mutation; every condition reads only the raw inputs
and adjustments, never a mutated weight, so each final per-feature value is
its base weight plus the sum of its bumps, written here directly. -/
def adjustedWeights (inputs : ReservoirInputs) (adjustments : ScenarioAdjustments) :
    FeatureWeights :=
  let tempDiff := |inputs.airTemp + adjustments.airTempChange - inputs.tempOut|
  let effectiveDischarge := inputs.discharge * (1 + adjustments.dischargeChange / 100)
  { tOutLag := 28 + (if tempDiff > 5 then -3 else 0)
    airTemperature := 18 + (if tempDiff > 5 then 5 else 0) +
      (if |adjustments.airTempChange| > 3 then 3 else 0)
    solarRadiation := 14 + (if inputs.solarRad > 500 then 4 else 0)
    seasonality := 12 + (if inputs.solarRad > 500 then -2 else 0)
    inflowTemp := 10
    discharge := 8 + (if effectiveDischarge < 50 then 2 else 0) +
      (if |adjustments.dischargeChange| > 20 then 4 else 0)
    storage := 6 + (if effectiveDischarge < 50 then 3 else 0) +
      (if |adjustments.storageChange| > 15 then 3 else 0)
    windSpeed := 4 }

/-- The list `Object.entries(adjusted)` in the source's key order. -/
def weightEntries (w : FeatureWeights) : List (String × ℚ) :=
  [("T_out (t-1)", w.tOutLag), ("Air Temperature", w.airTemperature),
   ("Solar Radiation", w.solarRadiation), ("Seasonality", w.seasonality),
   ("Inflow Temp", w.inflowTemp), ("Discharge", w.discharge),
   ("Storage", w.storage), ("Wind Speed", w.windSpeed)]

/-- The total `Object.values(adjusted).reduce((a, b) => a + b, 0)`. -/
def totalWeight (inputs : ReservoirInputs) (adjustments : ScenarioAdjustments) : ℚ :=
  ((weightEntries (adjustedWeights inputs adjustments)).map (fun p => p.2)).sum

/-- The `normalized` array of `calculateFeatureImportance` before sorting:
each weight becomes `Math.round((value / total) * 100)` with its category. -/
def normalizedEntries (inputs : ReservoirInputs) (adjustments : ScenarioAdjustments) :
    List FeatureImportanceEntry :=
  (weightEntries (adjustedWeights inputs adjustments)).map (fun p =>
    { feature := p.1
      importance := jsRound (p.2 / totalWeight inputs adjustments * 100)
      category := getCategoryForFeature p.1 })

/-- Function `calculateFeatureImportance` of `useReservoirModel.ts`: normalize
the adjusted weights to integer percentages of their total and sort
descending by importance (JS `Array.prototype.sort` is stable). -/
def calculateFeatureImportance (inputs : ReservoirInputs)
    (adjustments : ScenarioAdjustments) : List FeatureImportanceEntry :=
  (normalizedEntries inputs adjustments).mergeSort
    (fun x y => decide (y.importance ≤ x.importance))

/-- Rounding half-up is at most one half above the argument. -/
theorem jsRound_le (x : ℚ) : (jsRound x : ℚ) ≤ x + 1 / 2 := by
  unfold jsRound
  exact_mod_cast Int.floor_le (x + 1 / 2)

/-- Rounding half-up exceeds the argument minus one half. -/
theorem lt_jsRound (x : ℚ) : x - 1 / 2 < (jsRound x : ℚ) := by
  unfold jsRound
  have h := Int.lt_floor_add_one (x + 1 / 2)
  push_cast at h ⊢
  linarith

/-- Eight integer-rounded shares of a positive total differ from 100 by at
most 8 in absolute value (each share is off by at most one half). -/
theorem sum_jsRound_octet {v1 v2 v3 v4 v5 v6 v7 v8 T : ℚ}
    (hT : v1 + v2 + v3 + v4 + v5 + v6 + v7 + v8 = T) (hpos : 0 < T) :
    |jsRound (v1 / T * 100) + (jsRound (v2 / T * 100) + (jsRound (v3 / T * 100) +
      (jsRound (v4 / T * 100) + (jsRound (v5 / T * 100) + (jsRound (v6 / T * 100) +
      (jsRound (v7 / T * 100) + jsRound (v8 / T * 100))))))) - 100| ≤ 8 := by
  have hne : T ≠ 0 := ne_of_gt hpos
  have key : v1 / T * 100 + v2 / T * 100 + v3 / T * 100 + v4 / T * 100 + v5 / T * 100 +
      v6 / T * 100 + v7 / T * 100 + v8 / T * 100 = 100 := by
    field_simp
    linarith
  have u1 := jsRound_le (v1 / T * 100)
  have l1 := lt_jsRound (v1 / T * 100)
  have u2 := jsRound_le (v2 / T * 100)
  have l2 := lt_jsRound (v2 / T * 100)
  have u3 := jsRound_le (v3 / T * 100)
  have l3 := lt_jsRound (v3 / T * 100)
  have u4 := jsRound_le (v4 / T * 100)
  have l4 := lt_jsRound (v4 / T * 100)
  have u5 := jsRound_le (v5 / T * 100)
  have l5 := lt_jsRound (v5 / T * 100)
  have u6 := jsRound_le (v6 / T * 100)
  have l6 := lt_jsRound (v6 / T * 100)
  have u7 := jsRound_le (v7 / T * 100)
  have l7 := lt_jsRound (v7 / T * 100)
  have u8 := jsRound_le (v8 / T * 100)
  have l8 := lt_jsRound (v8 / T * 100)
  have hcast : |(((jsRound (v1 / T * 100) + (jsRound (v2 / T * 100) + (jsRound (v3 / T * 100) +
      (jsRound (v4 / T * 100) + (jsRound (v5 / T * 100) + (jsRound (v6 / T * 100) +
      (jsRound (v7 / T * 100) + jsRound (v8 / T * 100)))))))) : ℤ) : ℚ) - 100| ≤ 8 := by
    push_cast
    rw [abs_le]
    constructor <;> linarith
  exact_mod_cast hcast

/-- Lower bound on the lag-temperature weight. -/
theorem tOutLag_ge (i : ReservoirInputs) (a : ScenarioAdjustments) :
    25 ≤ (adjustedWeights i a).tOutLag := by
  simp only [adjustedWeights]
  split_ifs <;> norm_num

/-- Lower bound on the air-temperature weight. -/
theorem airTemperature_ge (i : ReservoirInputs) (a : ScenarioAdjustments) :
    18 ≤ (adjustedWeights i a).airTemperature := by
  simp only [adjustedWeights]
  split_ifs <;> norm_num

/-- Lower bound on the solar-radiation weight. -/
theorem solarRadiation_ge (i : ReservoirInputs) (a : ScenarioAdjustments) :
    14 ≤ (adjustedWeights i a).solarRadiation := by
  simp only [adjustedWeights]
  split_ifs <;> norm_num

/-- Lower bound on the seasonality weight. -/
theorem seasonality_ge (i : ReservoirInputs) (a : ScenarioAdjustments) :
    10 ≤ (adjustedWeights i a).seasonality := by
  simp only [adjustedWeights]
  split_ifs <;> norm_num

/-- Lower bound on the discharge weight. -/
theorem discharge_ge (i : ReservoirInputs) (a : ScenarioAdjustments) :
    8 ≤ (adjustedWeights i a).discharge := by
  simp only [adjustedWeights]
  split_ifs <;> norm_num

/-- Lower bound on the storage weight. -/
theorem storage_ge (i : ReservoirInputs) (a : ScenarioAdjustments) :
    6 ≤ (adjustedWeights i a).storage := by
  simp only [adjustedWeights]
  split_ifs <;> norm_num

/-- The adjusted weight total is the sum of the eight per-feature weights. -/
theorem totalWeight_eq (i : ReservoirInputs) (a : ScenarioAdjustments) :
    (adjustedWeights i a).tOutLag + (adjustedWeights i a).airTemperature +
      (adjustedWeights i a).solarRadiation + (adjustedWeights i a).seasonality +
      (adjustedWeights i a).inflowTemp + (adjustedWeights i a).discharge +
      (adjustedWeights i a).storage + (adjustedWeights i a).windSpeed =
      totalWeight i a := by
  simp only [totalWeight, weightEntries, List.map_cons, List.map_nil, List.sum_cons,
    List.sum_nil]
  ring

/-- The adjusted weight total is positive. -/
theorem totalWeight_pos (i : ReservoirInputs) (a : ScenarioAdjustments) :
    0 < totalWeight i a := by
  have h1 := tOutLag_ge i a
  have h2 := airTemperature_ge i a
  have h3 := solarRadiation_ge i a
  have h4 := seasonality_ge i a
  have h5 : (adjustedWeights i a).inflowTemp = 10 := rfl
  have h6 := discharge_ge i a
  have h7 := storage_ge i a
  have h8 : (adjustedWeights i a).windSpeed = 4 := rfl
  have := totalWeight_eq i a
  linarith

/-- C8: for every conditions record and adjustment record,
calculateFeatureImportance returns exactly 8 entries and the sum of their
integer importancePercent values differs from 100 by at most 8. -/
theorem featureImportance_entries_and_sum (i : ReservoirInputs) (a : ScenarioAdjustments) :
    (calculateFeatureImportance i a).length = 8 ∧
      |((calculateFeatureImportance i a).map FeatureImportanceEntry.importance).sum - 100|
        ≤ 8 := by
  have hperm : (calculateFeatureImportance i a).Perm (normalizedEntries i a) :=
    List.mergeSort_perm (normalizedEntries i a) _
  constructor
  · rw [hperm.length_eq]
    rfl
  · rw [(hperm.map _).sum_eq]
    simp only [normalizedEntries, weightEntries, List.map_cons, List.map_nil,
      List.sum_cons, List.sum_nil, add_zero]
    exact sum_jsRound_octet (totalWeight_eq i a) (totalWeight_pos i a)

/-- Keys of the `updateInput` callback (`keyof ReservoirInputs`). -/
inductive InputKey where
  | tempOut
  | tempIn
  | discharge
  | storage
  | airTemp
  | solarRad
  | windSpeed
  | humidity
deriving DecidableEq

/-- The update `setInputs((prev) => ({ ...prev, [key]: value }))`. -/
def setInput (inputs : ReservoirInputs) (key : InputKey) (value : ℚ) : ReservoirInputs :=
  match key with
  | .tempOut => { inputs with tempOut := value }
  | .tempIn => { inputs with tempIn := value }
  | .discharge => { inputs with discharge := value }
  | .storage => { inputs with storage := value }
  | .airTemp => { inputs with airTemp := value }
  | .solarRad => { inputs with solarRad := value }
  | .windSpeed => { inputs with windSpeed := value }
  | .humidity => { inputs with humidity := value }

/-- Keys of the `updateAdjustment` callback (`keyof ScenarioAdjustments`). -/
inductive AdjustmentKey where
  | dischargeChange
  | airTempChange
  | storageChange
deriving DecidableEq

/-- The update `setAdjustments((prev) => ({ ...prev, [key]: value }))`. -/
def setAdjustment (adjustments : ScenarioAdjustments) (key : AdjustmentKey) (value : ℚ) :
    ScenarioAdjustments :=
  match key with
  | .dischargeChange => { adjustments with dischargeChange := value }
  | .airTempChange => { adjustments with airTempChange := value }
  | .storageChange => { adjustments with storageChange := value }

/-- State of the `useReservoirModel` hook: live inputs and adjustments, the
active horizon, and the frozen snapshot taken by the last generate action. -/
structure ModelState where
  inputs : ReservoirInputs
  adjustments : ScenarioAdjustments
  activeHorizon : Horizon
  hasForecast : Bool
  forecastInputs : Option ReservoirInputs
  forecastAdjustments : Option ScenarioAdjustments
deriving DecidableEq

/-- Initial state of the hook (`useState` defaults). -/
def initialState : ModelState where
  inputs := { tempOut := 18.5, tempIn := 16.2, discharge := 142.5, storage := 285.3,
              airTemp := 22.8, solarRad := 425, windSpeed := 3.2, humidity := 65 }
  adjustments := { dischargeChange := 0, airTempChange := 0, storageChange := 0 }
  activeHorizon := .h1
  hasForecast := false
  forecastInputs := none
  forecastAdjustments := none

/-- User-visible operations exposed by the hook. -/
inductive ModelAction where
  | updateInput (key : InputKey) (value : ℚ)
  | updateAdjustment (key : AdjustmentKey) (value : ℚ)
  | resetAdjustments
  | setActiveHorizon (horizon : Horizon)
  | generateForecast
deriving DecidableEq

/-- One transition of the hook state.  `generateForecast` is the commit point:
it snapshots the live inputs and adjustments captured when the action was
issued (the source's `setTimeout` closure copies `{ ...inputs }` and
`{ ...adjustments }`) and raises `hasForecast`; no other action touches the
snapshot. -/
def step (s : ModelState) (a : ModelAction) : ModelState :=
  match a with
  | .updateInput k v => { s with inputs := setInput s.inputs k v }
  | .updateAdjustment k v => { s with adjustments := setAdjustment s.adjustments k v }
  | .resetAdjustments =>
      { s with adjustments := { dischargeChange := 0, airTempChange := 0, storageChange := 0 } }
  | .setActiveHorizon h => { s with activeHorizon := h }
  | .generateForecast =>
      { s with
          forecastInputs := some s.inputs
          forecastAdjustments := some s.adjustments
          hasForecast := true }

/-- The memoized `predictions` value: evaluated against the frozen snapshot
only, `none` before the first generate action. -/
def exposedPredictions (s : ModelState) (sf : ℚ) :
    Option (PredictionResult × PredictionResult × PredictionResult) :=
  match s.forecastInputs, s.forecastAdjustments with
  | some fi, some fa =>
      some (predictTemperature fi fa .h1 sf, predictTemperature fi fa .h3 sf,
        predictTemperature fi fa .h7 sf)
  | _, _ => none

/-- The memoized `featureImportance` value: evaluated against the frozen
snapshot only, `none` before the first generate action. -/
def exposedFeatureImportance (s : ModelState) : Option (List FeatureImportanceEntry) :=
  match s.forecastInputs, s.forecastAdjustments with
  | some fi, some fa => some (calculateFeatureImportance fi fa)
  | _, _ => none

/-- Actions other than `generateForecast` never touch the snapshot. -/
theorem step_preserves_snapshot (s : ModelState) (a : ModelAction)
    (h : a ≠ ModelAction.generateForecast) :
    (step s a).forecastInputs = s.forecastInputs ∧
      (step s a).forecastAdjustments = s.forecastAdjustments := by
  cases a
  case generateForecast => exact absurd rfl h
  all_goals exact ⟨rfl, rfl⟩

/-- The exposed outputs depend on the state only through the snapshot. -/
theorem exposed_congr {s t : ModelState} (hi : s.forecastInputs = t.forecastInputs)
    (ha : s.forecastAdjustments = t.forecastAdjustments) (sf : ℚ) :
    exposedPredictions s sf = exposedPredictions t sf ∧
      exposedFeatureImportance s = exposedFeatureImportance t := by
  unfold exposedPredictions exposedFeatureImportance
  rw [hi, ha]
  exact ⟨rfl, rfl⟩

/-- C9: in every reachable state, the exposed predictions and feature
importance are computed only from the snapshot captured by the most recent
generate action: running any sequence of non-generate actions (updateInput,
updateAdjustment, resetAdjustments, setActiveHorizon) leaves both exposed
outputs unchanged, and a generate action pins them to the inputs and
adjustments current at that moment. -/
theorem predictions_pinned_to_generate (s : ModelState) (l : List ModelAction) (sf : ℚ)
    (h : ∀ a ∈ l, a ≠ ModelAction.generateForecast) :
    (exposedPredictions (l.foldl step s) sf = exposedPredictions s sf ∧
      exposedFeatureImportance (l.foldl step s) = exposedFeatureImportance s) ∧
    exposedPredictions (step s ModelAction.generateForecast) sf =
      some (predictTemperature s.inputs s.adjustments .h1 sf,
        predictTemperature s.inputs s.adjustments .h3 sf,
        predictTemperature s.inputs s.adjustments .h7 sf) := by
  constructor
  · induction l generalizing s with
    | nil => exact ⟨rfl, rfl⟩
    | cons a rest ih =>
      have ha : a ≠ ModelAction.generateForecast := h a (List.mem_cons_self a rest)
      have hrest : ∀ b ∈ rest, b ≠ ModelAction.generateForecast := fun b hb =>
        h b (List.mem_cons_of_mem a hb)
      obtain ⟨hi, hadj⟩ := step_preserves_snapshot s a ha
      obtain ⟨hp, hf⟩ := ih (step s a) hrest
      obtain ⟨hp2, hf2⟩ := exposed_congr hi hadj sf
      exact ⟨hp.trans hp2, hf.trans hf2⟩
  · simp [exposedPredictions, step]

/-- Witness for C9: from the initial state, editing an input and an
adjustment and resetting adjustments leaves the exposed outputs unchanged,
and the generate transition exposes exactly the predictions of the
then-current snapshot. -/
theorem predictions_pinned_to_generate_witness :
    (∀ a ∈ [ModelAction.updateInput InputKey.tempOut 99,
        ModelAction.updateAdjustment AdjustmentKey.airTempChange 5,
        ModelAction.resetAdjustments], a ≠ ModelAction.generateForecast) ∧
    ((exposedPredictions
        ([ModelAction.updateInput InputKey.tempOut 99,
          ModelAction.updateAdjustment AdjustmentKey.airTempChange 5,
          ModelAction.resetAdjustments].foldl step initialState) 0 =
        exposedPredictions initialState 0 ∧
      exposedFeatureImportance
        ([ModelAction.updateInput InputKey.tempOut 99,
          ModelAction.updateAdjustment AdjustmentKey.airTempChange 5,
          ModelAction.resetAdjustments].foldl step initialState) =
        exposedFeatureImportance initialState) ∧
    exposedPredictions (step initialState ModelAction.generateForecast) 0 =
      some (predictTemperature initialState.inputs initialState.adjustments .h1 0,
        predictTemperature initialState.inputs initialState.adjustments .h3 0,
        predictTemperature initialState.inputs initialState.adjustments .h7 0)) := by
  constructor
  · intro a ha
    fin_cases ha <;> simp
  · exact predictions_pinned_to_generate initialState
      [ModelAction.updateInput InputKey.tempOut 99,
       ModelAction.updateAdjustment AdjustmentKey.airTempChange 5,
       ModelAction.resetAdjustments] 0
      (by intro a ha; fin_cases ha <;> simp)
